import Mathlib

/-!
# Verification of the auto-backend command-execution core

Shallow embedding of `src/builder/services/shell_service.py`
(`ShellService.run_command_stream` and its worker closure `run_in_thread`)
and `src/builder/services/process_manager.py` (`ProcessManager`),
with theorems settling the frozen claims about the streaming execution
engine: output delivery, exit-code markers, timeout enforcement,
termination protocol, and the process registry.
-/

namespace AutoBackend

/-! ## Line stripping (shell_service.py line 88: `output_queue.put(line.rstrip())`)

Python's `str.rstrip()` with no argument removes *all* trailing whitespace
characters, which for ASCII text are space, tab, LF, CR, vertical tab and
form feed. -/

/-- The ASCII whitespace characters recognised by Python's `str.rstrip()`. -/
def isPySpace (c : Char) : Bool :=
  c = ' ' || c = '\t' || c = '\n' || c = '\r' || c = '\x0b' || c = '\x0c'

/-- `rstrip` on a list of characters: drop the maximal whitespace suffix. -/
def rstripList (l : List Char) : List Char :=
  (l.reverse.dropWhile isPySpace).reverse

/-- Model of Python `line.rstrip()` as applied at shell_service.py:88. -/
def pyRstrip (s : String) : String :=
  ⟨rstripList s.data⟩

/-- A refinement reference written from the spec's words, NOT from the code:
"except trailing line terminator stripped" — strips only a trailing `\n`
or `\r\n`, keeping trailing spaces and tabs. -/
def specStripTerminator (s : String) : String :=
  if s.data.getLast? = some '\n' then
    let s' : List Char := s.data.dropLast
    if s'.getLast? = some '\r' then ⟨s'.dropLast⟩ else ⟨s'⟩
  else s

/-! ## Terminal result and the worker thread (shell_service.py lines 70-103) -/

/-- The dict pushed onto `result_queue` by `run_in_thread`
(shell_service.py lines 92-95 and 99-103). -/
structure ResultMsg where
  returncode : Int
  success : Bool
  error : Option String
deriving DecidableEq, Repr

/-- What the OS run of the child amounts to, seen from the worker thread:
a normal run producing raw output lines and an exit code, a failure of
`subprocess.Popen` itself (e.g. executable not found), or a failure while
reading after some raw lines were already read. -/
inductive WorkerOutcome
  | ok (rawLines : List String) (returncode : Int)
  | spawnFail (msg : String)
  | readFail (rawLines : List String) (msg : String)
deriving DecidableEq, Repr

/-- The worker closure `run_in_thread` (shell_service.py lines 70-103):
returns the sequence of strings pushed onto `output_queue` (each raw line
passed through `rstrip`, pushed only if non-empty, lines 86-88) and the
sequence of dicts pushed onto `result_queue` (lines 92-95 on normal exit,
lines 99-103 from the `except` handler). -/
def run_in_thread : WorkerOutcome → List String × List ResultMsg
  | .ok rawLines code =>
      ((rawLines.filter (fun l => l ≠ "")).map pyRstrip,
       [⟨code, code = 0, none⟩])
  | .spawnFail msg =>
      ([], [⟨-1, false, some msg⟩])
  | .readFail rawLines msg =>
      ((rawLines.filter (fun l => l ≠ "")).map pyRstrip,
       [⟨-1, false, some msg⟩])

/-- The synthetic exit-code marker line yielded by the bridge
(shell_service.py lines 146 and 149). -/
def exitMarker (code : Int) : String :=
  "__BUILD_EXIT_CODE:" ++ toString code ++ "__"

/-- An item yielded by the async generator `run_command_stream`:
an output line or the final exit-code marker line. -/
inductive StreamItem
  | line (s : String)
  | marker (code : Int)
deriving DecidableEq, Repr

/-! ## The bridge's consume loop (shell_service.py lines 109-151)

The `while thread.is_alive()` loop is modelled over a trace of loop
iterations (`Tick`s): at each iteration the consumer either dequeues a
line (`got = some l`, line 115) or observes an empty queue for 0.1 s
(`queue.Empty`, line 127). `now` is the event-loop clock at the timeout
check of that iteration. The trace ends when the worker thread has died,
at which point the loop exits and the marker phase (lines 138-149) runs. -/

/-- One iteration of the consume loop: the event-loop time at its timeout
check, and the line dequeued (`none` when `queue.Empty` fired). -/
structure Tick where
  now : Nat
  got : Option String
deriving DecidableEq, Repr

/-- The timeout test of shell_service.py lines 119-121 / 129-131:
`if timeout:` (falsy for `None` and for `0`) and then
`elapsed > timeout` with `elapsed = now - start_time`. -/
def timeoutFired (timeout : Option Nat) (start now : Nat) : Bool :=
  match timeout with
  | none => false
  | some t => t ≠ 0 && now - start > t

/-- How the consume loop ended: the worker thread died and the loop fell
through to the marker phase, or a `TimeoutError` was raised at the given
clock value (line 122 / 132). -/
inductive LoopExit
  | finished
  | timedOut (fireTime : Nat)
deriving DecidableEq, Repr

/-- The consume loop of shell_service.py lines 113-136: processes the
iteration trace in order; on a dequeued line, the line is yielded first
(line 116) and the timeout checked after (lines 119-122); on an empty
queue only the timeout is checked (lines 129-132). Returns the items
yielded by the loop and how it exited. -/
def streamLoop (timeout : Option Nat) (start : Nat) :
    List Tick → List StreamItem × LoopExit
  | [] => ([], .finished)
  | tk :: rest =>
      let here : List StreamItem :=
        match tk.got with
        | some l => [.line l]
        | none => []
      if timeoutFired timeout start tk.now then
        (here, .timedOut tk.now)
      else
        let r := streamLoop timeout start rest
        (here ++ r.1, r.2)

/-- The observable result of one call to `run_command_stream` past the
precondition phase: the items yielded, whether a `TimeoutError` escaped,
and whether the child process was killed by the timeout handler
(lines 171-180; `kill` runs only if a process was spawned,
`if process_ref[0]:` at line 174). -/
structure StreamRun where
  yielded : List StreamItem
  raisedTimeout : Bool
  killedProcess : Bool
deriving DecidableEq, Repr

/-- `run_command_stream` from the top of the consume loop on
(shell_service.py lines 109-180): run the loop; if it finished, read the
worker's result and yield the exit-code marker (lines 138-149: code `0`
when `success`, else the reported `returncode`); if it timed out, the
`except TimeoutError` handler kills the spawned process and re-raises
(lines 171-180). -/
def run_command_stream (timeout : Option Nat) (start : Nat)
    (ticks : List Tick) (result : ResultMsg) (spawned : Bool) : StreamRun :=
  match streamLoop timeout start ticks with
  | (ys, .finished) =>
      ⟨ys ++ [.marker (if result.success then 0 else result.returncode)],
       false, false⟩
  | (ys, .timedOut _) => ⟨ys, true, spawned⟩

/-! ## Thread/consumer interleaving (shell_service.py lines 63-151)

The worker thread and the consume loop communicate only through
`output_queue` and `result_queue`. This small-step model makes the
interleaving explicit: a `thread` step performs the worker's next action
(push one line, or push the result dict and die), a `consumer` step
performs one iteration of the bridge's loop exactly as written: the loop
condition is `while thread.is_alive()` (line 113), so once the thread has
died the loop exits even if lines are still sitting in `output_queue`. -/

/-- Joint state of the worker thread and the consume loop of one session. -/
structure SessionState where
  /-- raw lines the child will still produce (read at line 86). -/
  pending : List String
  /-- the result dict the worker will push when the child exits. -/
  result : ResultMsg
  /-- `thread.is_alive()` (line 113). -/
  threadAlive : Bool
  /-- contents of `output_queue`, FIFO (line 63). -/
  outQ : List String
  /-- contents of `result_queue` (line 64). -/
  resQ : Option ResultMsg
  /-- items yielded by the generator so far. -/
  yielded : List StreamItem
  /-- the consume loop has exited and the marker was yielded. -/
  loopExited : Bool
deriving DecidableEq, Repr

/-- Whose turn the scheduler gives next. -/
inductive SchedStep
  | thread
  | consumer
deriving DecidableEq, Repr

/-- One step of the worker thread (lines 86-95): push the next non-empty
line `rstrip`ped onto `output_queue`; when all lines are read, push the
result dict and terminate the thread. -/
def stepThread (s : SessionState) : SessionState :=
  if !s.threadAlive then s
  else
    match s.pending with
    | l :: rest =>
        if l ≠ "" then
          { s with pending := rest, outQ := s.outQ ++ [pyRstrip l] }
        else
          { s with pending := rest }
    | [] => { s with resQ := some s.result, threadAlive := false }

/-- One iteration of the bridge (lines 113-149, no timeout configured):
if the thread is alive, dequeue and yield one line when available
(lines 115-116) or spin on `queue.Empty`; if the thread has died, the
`while` loop exits, the result is read and the marker yielded
(lines 138-149) — any lines still in `output_queue` are never read. -/
def stepConsumer (s : SessionState) : SessionState :=
  if s.loopExited then s
  else if s.threadAlive then
    match s.outQ with
    | l :: rest => { s with outQ := rest, yielded := s.yielded ++ [.line l] }
    | [] => s
  else
    match s.resQ with
    | some r =>
        { s with
          yielded := s.yielded ++
            [.marker (if r.success then 0 else r.returncode)],
          loopExited := true }
    | none => s

/-- Run the session under an explicit interleaving of thread and consumer
steps. -/
def runSchedule (init : SessionState) (steps : List SchedStep) : SessionState :=
  steps.foldl
    (fun s st =>
      match st with
      | .thread => stepThread s
      | .consumer => stepConsumer s)
    init

/-- Initial session state once the thread has been started (line 107):
queues empty, thread alive, nothing yielded. -/
def initSession (rawLines : List String) (result : ResultMsg) : SessionState :=
  ⟨rawLines, result, true, [], none, [], false⟩

/-! ## Termination triggers (shell_service.py 153-180, process_manager.py 39-47)

Each termination trigger is modelled as the sequence of process-control
calls its handler makes, read off the source. -/

/-- A process-control call made while tearing an execution down. -/
inductive TermAction
  | terminate
  | waitGrace (seconds : Nat)
  | kill
deriving DecidableEq, Repr

/-- The `except GeneratorExit` handler (consumer abandonment,
shell_service.py lines 153-169): `terminate()`, `wait(timeout=3)`, and
`kill()` only if the wait failed, i.e. the process did not exit within
the grace period. -/
def generatorExitCleanup (exitsInGrace : Bool) : List TermAction :=
  [.terminate, .waitGrace 3] ++ (if exitsInGrace then [] else [.kill])

/-- The `except TimeoutError` handler (shell_service.py lines 171-180):
`process_ref[0].kill()`, nothing else. -/
def timeoutCleanup : List TermAction :=
  [.kill]

/-- The termination sequence of `ProcessManager.stop_process` for a
registered id (process_manager.py lines 39-47): `terminate()`,
`wait(timeout=3)`, and `kill()` only if the wait failed. -/
def stopProcessCleanup (exitsInGrace : Bool) : List TermAction :=
  [.terminate, .waitGrace 3] ++ (if exitsInGrace then [] else [.kill])

/-! ## The process registry (process_manager.py lines 10-66) -/

/-- How one registered OS process reacts to the stop protocol: whether
`terminate()` raises, whether the process exits within the 3-second
grace wait (so `wait(timeout=3)` returns instead of raising), and whether
`kill()` raises. -/
structure ProcBehavior where
  terminateRaises : Bool
  exitsInGrace : Bool
  killRaises : Bool
deriving DecidableEq, Repr

/-- The registry map `self._processes : Dict[str, Popen]`
(process_manager.py line 14), keys unique. -/
abbrev Registry := List (String × ProcBehavior)

/-- `ProcessManager.stop_process` (process_manager.py lines 30-54):
absent id → log and return `False` (lines 33-35); present id →
`terminate()`, `wait(timeout=3)` with a bare `except` falling back to
`kill()` (lines 41-46), then `del self._processes[task_id]` and `True`
(lines 49-50). Any exception escaping that sequence lands in the outer
`except` (lines 52-54), which returns `False` *without* deleting the
entry. Returns the registry after the call and the boolean result. -/
def stop_process (m : Registry) (id : String) : Registry × Bool :=
  match m.lookup id with
  | none => (m, false)
  | some p =>
      if p.terminateRaises then (m, false)
      else if p.exitsInGrace then
        (m.filter (fun kv => kv.1 ≠ id), true)
      else if p.killRaises then (m, false)
      else (m.filter (fun kv => kv.1 ≠ id), true)

/-! ## Lock discipline of `stop_process` (process_manager.py lines 30-54)

`with self._lock:` at line 32 wraps the whole body. The trace below lists
the operations of one `stop_process` call on a registered id in program
order, including the lock acquisition/release implied by the `with`. -/

/-- An atomic operation of a registry method, for reasoning about what
runs while `self._lock` is held. -/
inductive RegOp
  | acquire
  | release
  | mapLookup
  | terminate
  | waitGrace (seconds : Nat)
  | kill
  | mapDelete
deriving DecidableEq, Repr

/-- Program-order operation trace of `stop_process` on a *registered* id
whose termination sequence does not raise (process_manager.py lines
32-50): the `with self._lock:` block spans from the membership test to
after the `del`. -/
def stop_process_trace (exitsInGrace : Bool) : List RegOp :=
  [.acquire, .mapLookup, .terminate, .waitGrace 3] ++
    (if exitsInGrace then [] else [.kill]) ++ [.mapDelete, .release]

/-- The operations of a trace executed while the lock is held, scanning
with the current held/free state. -/
def opsWhileHeld : List RegOp → Bool → List RegOp
  | [], _ => []
  | .acquire :: rest, _ => opsWhileHeld rest true
  | .release :: rest, _ => opsWhileHeld rest false
  | op :: rest, held =>
      (if held then [op] else []) ++ opsWhileHeld rest held

/-! ## Precondition phase of `run_command_stream` (shell_service.py 40-107)

The steps of the generator body before the consume loop, as far as the
working-directory check is concerned. -/

/-- A caller-supplied working directory together with whether
`Path(cwd).exists()` holds for it. -/
structure Cwd where
  path : String
  existsOnDisk : Bool
deriving DecidableEq, Repr

/-- The error raised by the precondition phase:
`FileNotFoundError(f"工作目录不存在: {cwd}")` at shell_service.py line 50. -/
inductive SetupError
  | fileNotFound (path : String)
deriving DecidableEq, Repr

/-- An observable action of the generator body up to its first yield. -/
inductive SetupAction
  | checkCwd
  | startThread
  | spawnProcess
  | yieldItem
deriving DecidableEq, Repr

/-- The pre-loop phase of `run_command_stream` (shell_service.py lines
46-53 and 105-107, with the spawn at line 72 running inside the started
thread): with a supplied `cwd` the existence check runs first and a
missing directory raises `FileNotFoundError` before the thread is started
or anything is spawned or yielded; otherwise the thread is started, the
process spawned, and the generator proceeds to yield. -/
def run_command_stream_setup (cwd : Option Cwd) :
    List SetupAction × Option SetupError :=
  match cwd with
  | some c =>
      if !c.existsOnDisk then
        ([.checkCwd], some (.fileNotFound c.path))
      else
        ([.checkCwd, .startThread, .spawnProcess], none)
  | none => ([.startThread, .spawnProcess], none)

/-! ## Helper lemmas -/

/-- The first character surviving `dropWhile p` does not satisfy `p`. -/
theorem head?_dropWhile_false (p : Char → Bool) (l : List Char) :
    ∀ c : Char, (l.dropWhile p).head? = some c → p c = false := by
  induction l with
  | nil => intro c h; simp [List.dropWhile] at h
  | cons a t ih =>
      intro c h
      rw [List.dropWhile_cons] at h
      by_cases hp : p a
      · rw [if_pos hp] at h
        exact ih c h
      · rw [if_neg hp] at h
        simp at h
        rw [← h]
        exact Bool.of_not_eq_true hp

/-- Decomposition underlying `rstripList`: the original list is the
stripped list followed by the stripped-off whitespace suffix. -/
theorem rstripList_append (l : List Char) :
    rstripList l ++ (l.reverse.takeWhile isPySpace).reverse = l := by
  have h := List.takeWhile_append_dropWhile isPySpace l.reverse
  calc rstripList l ++ (l.reverse.takeWhile isPySpace).reverse
      = (l.reverse.takeWhile isPySpace ++ l.reverse.dropWhile isPySpace).reverse := by
        rw [List.reverse_append]; rfl
    _ = l := by rw [h, List.reverse_reverse]

/-- `lookup` after filtering out every pair with the given key yields
nothing. -/
theorem lookup_filter_ne (m : Registry) (id : String) :
    (m.filter (fun kv => kv.1 ≠ id)).lookup id = none := by
  induction m with
  | nil => rfl
  | cons kv t ih =>
      by_cases h : kv.1 = id
      · simpa [List.filter, h] using ih
      · have hbeq : (id == kv.1) = false := by
          simp [beq_iff_eq]
          exact fun hc => h hc.symm
        cases kv with
        | mk k v =>
            simp only [List.filter]
            have : (decide (¬(k, v).1 = id)) = true := by
              simp
              exact h
            rw [this]
            simpa [List.lookup, hbeq] using ih

/-- Every item yielded inside the consume loop is an output line — the
marker is only produced by the post-loop phase. -/
theorem streamLoop_items_are_lines (timeout : Option Nat) (start : Nat)
    (ticks : List Tick) :
    ∀ it ∈ (streamLoop timeout start ticks).1, ∃ s, it = StreamItem.line s := by
  induction ticks with
  | nil => intro it h; simp [streamLoop] at h
  | cons tk rest ih =>
      intro it h
      by_cases hf : timeoutFired timeout start tk.now
      · cases hg : tk.got with
        | some l =>
            simp [streamLoop, hf, hg] at h
            exact ⟨l, h⟩
        | none => simp [streamLoop, hf, hg] at h
      · cases hg : tk.got with
        | some l =>
            simp [streamLoop, hf, hg] at h
            rcases h with h | h
            · exact ⟨l, h⟩
            · exact ih it h
        | none =>
            simp [streamLoop, hf, hg] at h
            exact ih it h

/-- If the timeout test passes at some iteration of the trace, the loop
ends in a `TimeoutError`. -/
theorem streamLoop_fires (timeout : Option Nat) (start : Nat) (ticks : List Tick)
    (h : ∃ tk ∈ ticks, timeoutFired timeout start tk.now = true) :
    ∃ t, (streamLoop timeout start ticks).2 = LoopExit.timedOut t := by
  induction ticks with
  | nil => simp at h
  | cons tk rest ih =>
      by_cases hf : timeoutFired timeout start tk.now
      · exact ⟨tk.now, by simp [streamLoop, hf]⟩
      · have h' : ∃ tk' ∈ rest, timeoutFired timeout start tk'.now = true := by
          rcases h with ⟨tk', htk', hfired⟩
          rcases List.mem_cons.mp htk' with heq | hmem
          · subst heq; exact absurd hfired (by simpa using hf)
          · exact ⟨tk', hmem, hfired⟩
        obtain ⟨t, ht⟩ := ih h'
        exact ⟨t, by simp [streamLoop, hf, ht]⟩

/-- The loop yields at most one item per iteration up to and including
the first iteration whose timeout test passes: nothing is yielded past
the iteration where the timeout fires. -/
theorem streamLoop_length_le (timeout : Option Nat) (start : Nat)
    (ticks : List Tick) :
    (streamLoop timeout start ticks).1.length ≤
      ticks.findIdx (fun tk => timeoutFired timeout start tk.now) + 1 := by
  induction ticks with
  | nil => simp [streamLoop]
  | cons tk rest ih =>
      rw [List.findIdx_cons]
      by_cases hf : timeoutFired timeout start tk.now
      · cases hg : tk.got <;> simp [streamLoop, hf, hg]
      · cases hg : tk.got <;> simp [streamLoop, hf, hg] <;> omega

/-- With no timeout configured the loop always falls through to the
marker phase. -/
theorem streamLoop_none_finishes (start : Nat) (ticks : List Tick) :
    (streamLoop none start ticks).2 = LoopExit.finished := by
  induction ticks with
  | nil => rfl
  | cons tk rest ih => simp [streamLoop, timeoutFired, ih]

/-- `timeout = 0` never passes the `if timeout:` truthiness test, so the
timeout can never fire. -/
theorem timeoutFired_zero (start now : Nat) :
    timeoutFired (some 0) start now = false := by
  simp [timeoutFired]

/-- The consume loop behaves identically under `timeout = 0` and
`timeout = None`. -/
theorem streamLoop_zero_eq_none (start : Nat) (ticks : List Tick) :
    streamLoop (some 0) start ticks = streamLoop none start ticks := by
  induction ticks with
  | nil => rfl
  | cons tk rest ih =>
      simp [streamLoop, timeoutFired_zero, timeoutFired, ih]

/-- A trace whose iterations never dequeue anything yields nothing, and
(without a timeout) falls through to the marker phase. -/
theorem streamLoop_none_no_lines (start : Nat) (ticks : List Tick)
    (hgot : ∀ tk ∈ ticks, tk.got = none) :
    streamLoop none start ticks = ([], LoopExit.finished) := by
  induction ticks with
  | nil => rfl
  | cons tk rest ih =>
      have h1 : tk.got = none := hgot tk (by simp)
      have h2 := ih (fun tk' h => hgot tk' (List.mem_cons_of_mem _ h))
      simp [streamLoop, timeoutFired, h1, h2]

/-- Unfolding of `run_command_stream` when the loop finished normally. -/
theorem run_command_stream_finished (timeout : Option Nat) (start : Nat)
    (ticks : List Tick) (result : ResultMsg) (spawned : Bool)
    (h : (streamLoop timeout start ticks).2 = LoopExit.finished) :
    run_command_stream timeout start ticks result spawned
      = ⟨(streamLoop timeout start ticks).1 ++
          [.marker (if result.success then 0 else result.returncode)],
         false, false⟩ := by
  rcases hE : streamLoop timeout start ticks with ⟨ys, ex⟩
  rw [hE] at h
  simp at h
  subst h
  simp [run_command_stream, hE]

/-- Unfolding of `run_command_stream` when the loop raised
`TimeoutError`. -/
theorem run_command_stream_timedOut (timeout : Option Nat) (start : Nat)
    (ticks : List Tick) (result : ResultMsg) (spawned : Bool) (t : Nat)
    (h : (streamLoop timeout start ticks).2 = LoopExit.timedOut t) :
    run_command_stream timeout start ticks result spawned
      = ⟨(streamLoop timeout start ticks).1, true, spawned⟩ := by
  rcases hE : streamLoop timeout start ticks with ⟨ys, ex⟩
  rw [hE] at h
  simp at h
  subst h
  simp [run_command_stream, hE]

/-! ## Claims -/

/-- **C1** (code bug): the claim says an execution that ran to completion
having printed K lines yields exactly those K lines and then the marker,
dropping nothing. Evaluating the session model refutes this: for a
command that prints "hello" and exits 0, under the schedule where the
worker thread finishes (pushes the line and the result dict) before the
consumer's first `while thread.is_alive()` check, the generator yields
only the exit marker — the line is pushed onto `output_queue` but never
delivered, because the loop exits on thread death without draining the
queue. A drain-respecting schedule on the same input delivers the line,
exhibiting the schedule-dependent loss. -/
theorem C1_dropped_output_line_eval :
    (runSchedule (initSession ["hello\n"] ⟨0, true, none⟩)
        [SchedStep.thread, SchedStep.thread, SchedStep.consumer]).yielded
      = [StreamItem.marker 0] ∧
    (runSchedule (initSession ["hello\n"] ⟨0, true, none⟩)
        [SchedStep.thread, SchedStep.thread, SchedStep.consumer]).outQ
      = ["hello"] ∧
    (runSchedule (initSession ["hello\n"] ⟨0, true, none⟩)
        [SchedStep.thread, SchedStep.thread, SchedStep.consumer]).loopExited
      = true ∧
    (runSchedule (initSession ["hello\n"] ⟨0, true, none⟩)
        [SchedStep.thread, SchedStep.consumer, SchedStep.thread,
         SchedStep.consumer]).yielded
      = [StreamItem.line "hello", StreamItem.marker 0] := by
  refine ⟨?_, ?_, ?_, ?_⟩ <;> rfl

/-- **C2** (counterexample): the claim says every termination trigger —
bridge timeout included — first requests graceful termination and only
force-kills after the grace period. The `except TimeoutError` handler of
`run_command_stream` force-kills immediately: its action sequence is
exactly `[kill]`, containing no `terminate()` at all. -/
theorem C2_timeout_trigger_skips_graceful_cex :
    TermAction.kill ∈ timeoutCleanup ∧
    TermAction.terminate ∉ timeoutCleanup ∧
    timeoutCleanup ≠ generatorExitCleanup true ∧
    timeoutCleanup ≠ generatorExitCleanup false := by
  decide

/-- **C2** (amended): the two-phase terminate → grace wait → kill
protocol is applied identically on consumer abandonment
(`GeneratorExit`) and on an explicit registry `stop_process`, beginning
with a graceful `terminate()`; the bridge-timeout trigger, however,
force-kills the process immediately with no graceful phase. -/
theorem C2_termination_protocol_amended (exitsInGrace : Bool) :
    generatorExitCleanup exitsInGrace = stopProcessCleanup exitsInGrace ∧
    (generatorExitCleanup exitsInGrace).head? = some TermAction.terminate ∧
    (TermAction.kill ∈ generatorExitCleanup exitsInGrace ↔ exitsInGrace = false) ∧
    timeoutCleanup = [TermAction.kill] := by
  cases exitsInGrace <;> decide

/-- **C5** (counterexample): the claim says only the trailing line
terminator is stripped and trailing spaces or tabs survive. The worker
pushes `line.rstrip()`, which also removes trailing spaces and tabs: for
the raw line "ok \t\n" the delivered line is "ok", while the
spec-mandated terminator-only stripping would deliver "ok \t". -/
theorem C5_trailing_whitespace_stripped_cex :
    (run_in_thread (WorkerOutcome.ok ["ok \t\n"] 0)).1 = ["ok"] ∧
    specStripTerminator "ok \t\n" = "ok \t" ∧
    ("ok" : String) ≠ "ok \t" := by
  refine ⟨rfl, rfl, ?_⟩
  decide

/-- **C6**: on every worker path — normal exit with any code, spawn
failure, failure while reading — `run_in_thread` pushes exactly one
terminal result dict onto `result_queue`: never zero, never more than
one. -/
theorem C6_exactly_one_terminal_event (o : WorkerOutcome) :
    (run_in_thread o).2.length = 1 := by
  cases o <;> rfl

/-- **C8** (counterexample): the claim says the registry lock is never
held across the termination wait. In `stop_process` the `with self._lock`
block spans the whole body, so the 3-second `wait` executes while the
lock is held — for both the process-exits-in-grace and the forced-kill
variants. -/
theorem C8_lock_held_across_wait_cex :
    RegOp.waitGrace 3 ∈ opsWhileHeld (stop_process_trace true) false ∧
    RegOp.waitGrace 3 ∈ opsWhileHeld (stop_process_trace false) false := by
  decide

/-- **C8** (amended): the registry's single lock does guard all map
operations, but `stop_process` holds it for its entire body: the
membership test, the graceful `terminate`, the 3-second grace wait, the
forced `kill` (when needed) and the map deletion all execute while the
lock is held, so a slow stop of one process does block registry
operations concerning other executions until it completes. -/
theorem C8_lock_amended (exitsInGrace : Bool) :
    RegOp.waitGrace 3 ∈ opsWhileHeld (stop_process_trace exitsInGrace) false ∧
    RegOp.terminate ∈ opsWhileHeld (stop_process_trace exitsInGrace) false ∧
    RegOp.mapLookup ∈ opsWhileHeld (stop_process_trace exitsInGrace) false ∧
    RegOp.mapDelete ∈ opsWhileHeld (stop_process_trace exitsInGrace) false ∧
    RegOp.kill ∈ opsWhileHeld (stop_process_trace false) false := by
  cases exitsInGrace <;> decide

/-- **C5** (amended): every output line is pushed with *all* trailing
whitespace stripped — spaces, tabs, CR and LF alike — and nothing else
changed: the raw line is the delivered line followed by a suffix made
only of whitespace characters, and the delivered line itself never ends
in a whitespace character. -/
theorem C5_rstrip_amended (raw : String) :
    (∃ ws : List Char, raw.data = (pyRstrip raw).data ++ ws ∧
        ∀ c ∈ ws, isPySpace c = true) ∧
    (∀ c : Char, (pyRstrip raw).data.getLast? = some c → isPySpace c = false) := by
  constructor
  · refine ⟨(raw.data.reverse.takeWhile isPySpace).reverse, ?_, ?_⟩
    · exact (rstripList_append raw.data).symm
    · intro c hc
      rw [List.mem_reverse] at hc
      exact List.mem_takeWhile_imp hc
  · intro c hc
    have hdata : (pyRstrip raw).data
        = (raw.data.reverse.dropWhile isPySpace).reverse := rfl
    rw [hdata, List.getLast?_reverse] at hc
    exact head?_dropWhile_false isPySpace raw.data.reverse c hc

/-- Witness for C5's amended claim at the concrete raw line "ok \t\n". -/
theorem C5_rstrip_witness :
    (∃ ws : List Char, ("ok \t\n" : String).data = (pyRstrip "ok \t\n").data ++ ws ∧
        ∀ c ∈ ws, isPySpace c = true) ∧
    (∀ c : Char, (pyRstrip "ok \t\n").data.getLast? = some c → isPySpace c = false) :=
  C5_rstrip_amended "ok \t\n"

/-- **C7** (counterexample): the claim says that after *any* `stop_process`
call returns, the id is gone from the map. For a registered process whose
`terminate` succeeds, which does not exit within the grace period, and
whose `kill` raises, the outer `except` returns `False` without executing
the `del`: the entry is still in the map after the call. -/
theorem C7_failed_stop_keeps_entry_cex :
    (stop_process [("t1", ⟨false, false, true⟩)] "t1").2 = false ∧
    (stop_process [("t1", ⟨false, false, true⟩)] "t1").1.lookup "t1"
      = some ⟨false, false, true⟩ := by
  decide

/-- **C7** (amended): `stop_process` on an absent id returns `False` and
raises nothing, leaving the map unchanged; on a present id it runs the
two-phase protocol, and when the termination sequence raises no
exception it deletes the entry and returns `True` (the id is then no
longer in the map); but when `terminate()` or the fallback `kill()`
raises, it returns `False` and the entry *remains* in the map. -/
theorem C7_stop_process_amended (m : Registry) (id : String) :
    (m.lookup id = none → stop_process m id = (m, false)) ∧
    (∀ p : ProcBehavior, m.lookup id = some p → p.terminateRaises = false →
      p.exitsInGrace = true ∨ p.killRaises = false →
      (stop_process m id).2 = true ∧ (stop_process m id).1.lookup id = none) ∧
    (∀ p : ProcBehavior, m.lookup id = some p →
      p.terminateRaises = true ∨ (p.exitsInGrace = false ∧ p.killRaises = true) →
      stop_process m id = (m, false)) := by
  refine ⟨?_, ?_, ?_⟩
  · intro h
    simp [stop_process, h]
  · intro p hp hterm hok
    rcases hok with hg | hk
    · simp [stop_process, hp, hterm, hg, lookup_filter_ne]
      exact fun a b _ hne heq => hne heq.symm
    · by_cases hg : p.exitsInGrace
      · simp [stop_process, hp, hterm, hg, lookup_filter_ne]
        exact fun a b _ hne heq => hne heq.symm
      · simp [stop_process, hp, hterm, hg, hk, lookup_filter_ne]
        exact fun a b _ hne heq => hne heq.symm
  · intro p hp h
    rcases h with ht | ⟨hg, hk⟩
    · simp [stop_process, hp, ht]
    · by_cases ht : p.terminateRaises
      · simp [stop_process, hp, ht]
      · simp [stop_process, hp, ht, hg, hk]

/-- Witness for C7's amended claim: a concrete registry with one entry
whose process stops cleanly — `stop_process` returns `True` and the id is
gone. -/
theorem C7_stop_process_witness :
    (stop_process [("t1", ⟨false, true, false⟩)] "t1").2 = true ∧
    (stop_process [("t1", ⟨false, true, false⟩)] "t1").1.lookup "t1" = none :=
  (C7_stop_process_amended [("t1", ⟨false, true, false⟩)] "t1").2.1
    ⟨false, true, false⟩ (by decide) rfl (Or.inl rfl)

/-- **C9**: a supplied working directory that does not exist makes
`run_command_stream` raise `FileNotFoundError` during the precondition
phase: the observable actions stop at the existence check — no thread is
started, no process is spawned, and nothing is yielded. -/
theorem C9_missing_cwd_fails_fast (c : Cwd) (h : c.existsOnDisk = false) :
    run_command_stream_setup (some c)
      = ([SetupAction.checkCwd], some (SetupError.fileNotFound c.path)) ∧
    SetupAction.startThread ∉ (run_command_stream_setup (some c)).1 ∧
    SetupAction.spawnProcess ∉ (run_command_stream_setup (some c)).1 ∧
    SetupAction.yieldItem ∉ (run_command_stream_setup (some c)).1 := by
  have h1 : run_command_stream_setup (some c)
      = ([SetupAction.checkCwd], some (SetupError.fileNotFound c.path)) := by
    simp [run_command_stream_setup, h]
  have h2 : ([SetupAction.checkCwd],
      some (SetupError.fileNotFound c.path)).1 = [SetupAction.checkCwd] := rfl
  refine ⟨h1, ?_, ?_, ?_⟩ <;> rw [h1, h2] <;> decide

/-- Witness for C9 at a concrete missing directory. -/
theorem C9_missing_cwd_witness :
    run_command_stream_setup (some ⟨"/nonexistent/dir", false⟩)
      = ([SetupAction.checkCwd],
         some (SetupError.fileNotFound "/nonexistent/dir")) :=
  (C9_missing_cwd_fails_fast ⟨"/nonexistent/dir", false⟩ rfl).1

/-- **C3**: with a nonzero timeout configured, if the elapsed event-loop
time exceeds it at some iteration before the loop has observed the
terminal result, the stream raises `TimeoutError` — a failure channel
disjoint from the exit-code marker: no marker item is ever yielded — the
spawned child process is killed, and no item is yielded past the
iteration at which the timeout fired. -/
theorem C3_timeout_raises_kills_stops_output (T start : Nat)
    (ticks : List Tick) (result : ResultMsg) (hT : T ≠ 0)
    (hfire : ∃ tk ∈ ticks, start + T < tk.now) :
    (run_command_stream (some T) start ticks result true).raisedTimeout = true ∧
    (run_command_stream (some T) start ticks result true).killedProcess = true ∧
    (∀ c : Int, StreamItem.marker c ∉
      (run_command_stream (some T) start ticks result true).yielded) ∧
    (run_command_stream (some T) start ticks result true).yielded.length ≤
      ticks.findIdx (fun tk => timeoutFired (some T) start tk.now) + 1 := by
  have hfire' : ∃ tk ∈ ticks, timeoutFired (some T) start tk.now = true := by
    rcases hfire with ⟨tk, hmem, hlt⟩
    refine ⟨tk, hmem, ?_⟩
    simp [timeoutFired, hT]
    omega
  obtain ⟨t, ht⟩ := streamLoop_fires (some T) start ticks hfire'
  have hrun := run_command_stream_timedOut (some T) start ticks result true t ht
  rw [hrun]
  refine ⟨rfl, rfl, ?_, ?_⟩
  · intro c hc
    obtain ⟨s, hs⟩ := streamLoop_items_are_lines (some T) start ticks _ hc
    exact StreamItem.noConfusion hs
  · exact streamLoop_length_le (some T) start ticks

/-- Witness for C3: a 1-second timeout, one iteration dequeuing a line at
clock 5 — the stream raises the timeout and the process is killed. -/
theorem C3_timeout_witness :
    (run_command_stream (some 1) 0 [⟨5, some "partial"⟩]
        ⟨0, true, none⟩ true).raisedTimeout = true ∧
    (run_command_stream (some 1) 0 [⟨5, some "partial"⟩]
        ⟨0, true, none⟩ true).killedProcess = true := by
  have h := C3_timeout_raises_kills_stops_output 1 0 [⟨5, some "partial"⟩]
    ⟨0, true, none⟩ (by decide) ⟨⟨5, some "partial"⟩, by simp, by decide⟩
  exact ⟨h.1, h.2.1⟩

/-- **C4** (counterexample): the claim says a spawn failure is surfaced
to the caller as a raised `SpawnFailure` and the terminal event carries
an error descriptor *instead of* an exit code. In the code the worker's
`except` swallows the exception and pushes a result dict that does carry
a returncode (the sentinel `-1`) alongside the error text; the stream
then completes normally, yielding the ordinary exit-code marker for `-1`
and raising nothing. -/
theorem C4_spawn_failure_not_raised_cex :
    run_in_thread (WorkerOutcome.spawnFail "FileNotFoundError: mvn")
      = ([], [⟨-1, false, some "FileNotFoundError: mvn"⟩]) ∧
    run_command_stream none 0 []
        ⟨-1, false, some "FileNotFoundError: mvn"⟩ false
      = ⟨[StreamItem.marker (-1)], false, false⟩ := by
  exact ⟨rfl, rfl⟩

/-- **C4** (amended): on a spawn failure the worker pushes no output
lines and exactly one terminal result dict carrying returncode `-1`,
`success = False` and the error text; the stream then yields exactly one
item — the exit-code marker encoding `-1` — and raises no exception, so
the failure is *not* distinguishable from a process that exited with
code `-1`. -/
theorem C4_spawn_failure_amended (msg : String) (start : Nat)
    (ticks : List Tick) (hgot : ∀ tk ∈ ticks, tk.got = none) :
    run_in_thread (WorkerOutcome.spawnFail msg)
      = ([], [⟨-1, false, some msg⟩]) ∧
    run_command_stream none start ticks ⟨-1, false, some msg⟩ false
      = ⟨[StreamItem.marker (-1)], false, false⟩ := by
  refine ⟨rfl, ?_⟩
  have h := streamLoop_none_no_lines start ticks hgot
  simp [run_command_stream, h]

/-- Witness for C4's amended claim at a concrete failure message and a
trace of one empty poll. -/
theorem C4_spawn_failure_witness :
    run_command_stream none 7 [⟨8, none⟩] ⟨-1, false, some "boom"⟩ false
      = ⟨[StreamItem.marker (-1)], false, false⟩ :=
  (C4_spawn_failure_amended "boom" 7 [⟨8, none⟩] (by decide)).2

/-- **C10**: a configured timeout of `0` disables timeout enforcement
exactly like `None`: whatever the trace of loop iterations (however late
their clock values), the run with `timeout = 0` equals the run with no
timeout — no `TimeoutError` is ever raised and the process is never
killed by the timeout handler. -/
theorem C10_zero_timeout_disables (start : Nat) (ticks : List Tick)
    (result : ResultMsg) (spawned : Bool) :
    run_command_stream (some 0) start ticks result spawned
      = run_command_stream none start ticks result spawned ∧
    (run_command_stream (some 0) start ticks result spawned).raisedTimeout
      = false ∧
    (run_command_stream (some 0) start ticks result spawned).killedProcess
      = false := by
  have hz := streamLoop_zero_eq_none start ticks
  have hfin : (streamLoop (some 0) start ticks).2 = LoopExit.finished := by
    rw [hz]; exact streamLoop_none_finishes start ticks
  have h0 := run_command_stream_finished (some 0) start ticks result spawned hfin
  have hn := run_command_stream_finished none start ticks result spawned
    (streamLoop_none_finishes start ticks)
  refine ⟨?_, ?_, ?_⟩
  · rw [h0, hn, hz]
  · rw [h0]
  · rw [h0]

end AutoBackend
